import Mathlib

/-!
Verification of `create_dmg_background.py`: a one-shot script that draws a
DMG installer background (arrow plus caption) twice — once at 660x400 and
once at double resolution — and writes the two PNG files.

The script is straight-line code whose only effects are drawing calls on two
canvases, two file writes and two prints. We embed it as:

* a list of `Event`s (`scriptTrace`) mirroring the source statement by
  statement, parametrised by an `Env` capturing the two external
  dependencies: the outcome of loading the system font, and the text
  measurement (`draw.textbbox`) of the chosen font; and
* an interpreter (`runEvents`) over a raster model, parametrised by a
  `RasterEnv` giving each drawing primitive its rasterised pixel footprint,
  which yields the final pixel buffers, the filesystem effect and the
  console output.
-/

namespace DmgBackground

/-- An RGB color, as the 3-tuples passed to PIL. -/
structure Color where
  r : Nat
  g : Nat
  b : Nat
deriving DecidableEq, Repr

/-- A 2D point; Python ints, so `Int`. -/
structure Point where
  x : Int
  y : Int
deriving DecidableEq, Repr

/-- A text bounding box as returned by `draw.textbbox`: `(x0, y0, x1, y1)`. -/
structure BBox where
  x0 : Int
  y0 : Int
  x1 : Int
  y1 : Int
deriving DecidableEq, Repr

/-- The font value held by the script: either the truetype font loaded from a
path at a size, or the library's built-in default font. -/
inductive Font where
  | truetype (path : String) (size : Nat)
  | builtinDefault
deriving DecidableEq, Repr

/-- Outcome of the `ImageFont.truetype` call: it either returns a font or
raises some exception (the bare `except:` catches every kind). -/
inductive FontLoad where
  | loaded
  | raised
deriving DecidableEq, Repr

/-- The script's external environment: the outcomes of the two font-load
attempts and the text-measurement function of the drawing library. -/
structure Env where
  fontLoad14 : FontLoad
  fontLoad28 : FontLoad
  textbbox : Point → String → Font → BBox

/-- One effectful statement of the script. -/
inductive Event where
  | newImage (w h : Nat) (c : Color)
  | line (p1 p2 : Point) (fill : Color) (width : Nat)
  | polygon (pts : List Point) (fill : Color)
  | text (pos : Point) (s : String) (fill : Color) (f : Font)
  | save (path : String)
  | print (s : String)

/-! ### Constants, line by line from the source -/

def WIDTH : Nat := 660
def HEIGHT : Nat := 400

def backgroundColor : Color := ⟨240, 240, 245⟩

def strokeColor : Color := ⟨150, 150, 160⟩

def captionColor : Color := ⟨100, 100, 110⟩

def app_x : Int := 180
def app_y : Int := 170
def apps_x : Int := 480
def apps_y : Int := 170

def arrow_y : Int := 190
def arrow_start_x : Int := 250
def arrow_end_x : Int := 400
def arrow_width : Nat := 2

def arrow_head_size : Int := 20

/-- `arrow_head = [(arrow_end_x + 2, arrow_y), (arrow_end_x - arrow_head_size,
arrow_y - arrow_head_size//2), (arrow_end_x - arrow_head_size, arrow_y +
arrow_head_size//2)]`. -/
def arrow_head : List Point :=
  [ ⟨arrow_end_x + 2, arrow_y⟩,
    ⟨arrow_end_x - arrow_head_size, arrow_y - arrow_head_size / 2⟩,
    ⟨arrow_end_x - arrow_head_size, arrow_y + arrow_head_size / 2⟩ ]

def helveticaPath : String := "/System/Library/Fonts/Helvetica.ttc"

/-- `try: font = ImageFont.truetype(...,14) except: font = ImageFont.load_default()`. -/
def font (env : Env) : Font :=
  match env.fontLoad14 with
  | .loaded => .truetype helveticaPath 14
  | .raised => .builtinDefault

def text : String := "Drag to install"

/-- `bbox = draw.textbbox((0, 0), text, font=font)`. -/
def bbox (env : Env) : BBox := env.textbbox ⟨0, 0⟩ text (font env)

/-- `text_width = bbox[2] - bbox[0]`. -/
def text_width (env : Env) : Int := (bbox env).x1 - (bbox env).x0

/-- `text_x = (arrow_start_x + arrow_end_x) // 2 - text_width // 2`
(both divisors are positive so Lean `Int` division is Python floor division). -/
def text_x (env : Env) : Int :=
  (arrow_start_x + arrow_end_x) / 2 - text_width env / 2

def text_y : Int := arrow_y + 12

def output_path : String := "dmg-background.png"

def baseMessage : String := "DMG background created: " ++ output_path

/-! ### The 2x constants, line by line from the source -/

def arrow_y_2x : Int := 190 * 2
def arrow_start_x_2x : Int := 250 * 2
def arrow_end_x_2x : Int := 400 * 2
def arrow_width_2x : Nat := 2 * 2

def arrow_head_2x : List Point :=
  [ ⟨arrow_end_x_2x + 4, arrow_y_2x⟩,
    ⟨arrow_end_x_2x - arrow_head_size * 2, arrow_y_2x - arrow_head_size⟩,
    ⟨arrow_end_x_2x - arrow_head_size * 2, arrow_y_2x + arrow_head_size⟩ ]

def font_2x (env : Env) : Font :=
  match env.fontLoad28 with
  | .loaded => .truetype helveticaPath 28
  | .raised => .builtinDefault

def bbox_2x (env : Env) : BBox := env.textbbox ⟨0, 0⟩ text (font_2x env)

def text_width_2x (env : Env) : Int := (bbox_2x env).x1 - (bbox_2x env).x0

def text_x_2x (env : Env) : Int :=
  (arrow_start_x_2x + arrow_end_x_2x) / 2 - text_width_2x env / 2

def text_y_2x : Int := arrow_y_2x + 24

def output_path_2x : String := "dmg-background@2x.png"

def twoxMessage : String := "DMG background @2x created: " ++ output_path_2x

/-! ### The event trace of the script -/

/-- The effectful statements of the base render, in source order. -/
def baseTrace (env : Env) : List Event :=
  [ .newImage WIDTH HEIGHT backgroundColor,
    .line ⟨arrow_start_x, arrow_y⟩ ⟨arrow_end_x, arrow_y⟩ strokeColor arrow_width,
    .polygon arrow_head strokeColor,
    .text ⟨text_x env, text_y⟩ text captionColor (font env),
    .save output_path,
    .print baseMessage ]

/-- The effectful statements of the 2x render, in source order. -/
def twoxTrace (env : Env) : List Event :=
  [ .newImage (WIDTH * 2) (HEIGHT * 2) backgroundColor,
    .line ⟨arrow_start_x_2x, arrow_y_2x⟩ ⟨arrow_end_x_2x, arrow_y_2x⟩ strokeColor arrow_width_2x,
    .polygon arrow_head_2x strokeColor,
    .text ⟨text_x_2x env, text_y_2x⟩ text captionColor (font_2x env),
    .save output_path_2x,
    .print twoxMessage ]

/-- The whole script: the base render followed by the 2x render. -/
def scriptTrace (env : Env) : List Event :=
  baseTrace env ++ twoxTrace env

/-! ### Raster semantics

PIL's rasterisation of a primitive is external to this repository, so each
primitive's set of touched pixels (its footprint) is a parameter.  `line` and
`polygon` fill every footprint pixel with the solid fill color; `text` writes
a library-determined color (antialiasing may blend with the pixel underneath),
which is all the claims need: a text pixel outside the glyph footprint is
untouched. -/

/-- A raster buffer: dimensions plus a pixel map. -/
structure Image where
  width : Nat
  height : Nat
  pixel : Nat → Nat → Color

/-- `Image.new('RGB', (w, h), color=c)`: a uniform canvas. -/
def Image.new (w h : Nat) (c : Color) : Image :=
  ⟨w, h, fun _ _ => c⟩

/-- Rasterisation behavior of the drawing library: which pixels each
primitive touches, and what color a touched text pixel receives (a function
of the pixel's previous color, to allow antialiased blending). -/
structure RasterEnv where
  lineFoot : Point → Point → Nat → Nat → Nat → Bool
  polyFoot : List Point → Nat → Nat → Bool
  textFoot : Point → String → Font → Nat → Nat → Bool
  textPaint : Point → String → Font → Color → Color → Nat → Nat → Color

def drawLine (renv : RasterEnv) (img : Image) (p1 p2 : Point) (c : Color)
    (w : Nat) : Image :=
  { img with pixel := fun x y =>
      if renv.lineFoot p1 p2 w x y then c else img.pixel x y }

def drawPolygon (renv : RasterEnv) (img : Image) (pts : List Point)
    (c : Color) : Image :=
  { img with pixel := fun x y =>
      if renv.polyFoot pts x y then c else img.pixel x y }

def drawText (renv : RasterEnv) (img : Image) (pos : Point) (s : String)
    (c : Color) (f : Font) : Image :=
  { img with pixel := fun x y =>
      if renv.textFoot pos s f x y then renv.textPaint pos s f c (img.pixel x y) x y
      else img.pixel x y }

/-- Interpreter state: the canvas currently being drawn on (none before the
first `Image.new`), the filesystem (path to file contents), and the lines
printed to stdout so far. -/
structure RState where
  cur : Option Image
  fs : String → Option Image
  printed : List String

/-- Effect of one event on the state.  `save` overwrites whatever the
filesystem held at that path. -/
def step (renv : RasterEnv) (s : RState) : Event → RState
  | .newImage w h c => { s with cur := some (Image.new w h c) }
  | .line p1 p2 c w => { s with cur := s.cur.map fun i => drawLine renv i p1 p2 c w }
  | .polygon pts c => { s with cur := s.cur.map fun i => drawPolygon renv i pts c }
  | .text pos str c f => { s with cur := s.cur.map fun i => drawText renv i pos str c f }
  | .save path => { s with fs := fun p => if p = path then s.cur else s.fs p }
  | .print str => { s with printed := s.printed ++ [str] }

def runEvents (renv : RasterEnv) (s : RState) (l : List Event) : RState :=
  l.foldl (step renv) s

/-- The state a run starts from: no canvas, an arbitrary pre-existing
filesystem, nothing printed. -/
def startState (fs0 : String → Option Image) : RState :=
  ⟨none, fs0, []⟩

/-- A whole run of the script. -/
def scriptRun (env : Env) (renv : RasterEnv) (fs0 : String → Option Image) : RState :=
  runEvents renv (startState fs0) (scriptTrace env)

/-- The base canvas after all of its drawing steps. -/
def baseImage (env : Env) (renv : RasterEnv) : Image :=
  drawText renv
    (drawPolygon renv
      (drawLine renv (Image.new WIDTH HEIGHT backgroundColor)
        ⟨arrow_start_x, arrow_y⟩ ⟨arrow_end_x, arrow_y⟩ strokeColor arrow_width)
      arrow_head strokeColor)
    ⟨text_x env, text_y⟩ text captionColor (font env)

/-- The 2x canvas after all of its drawing steps. -/
def twoxImage (env : Env) (renv : RasterEnv) : Image :=
  drawText renv
    (drawPolygon renv
      (drawLine renv (Image.new (WIDTH * 2) (HEIGHT * 2) backgroundColor)
        ⟨arrow_start_x_2x, arrow_y_2x⟩ ⟨arrow_end_x_2x, arrow_y_2x⟩ strokeColor arrow_width_2x)
      arrow_head_2x strokeColor)
    ⟨text_x_2x env, text_y_2x⟩ text captionColor (font_2x env)

/-- Master characterisation of a run: the final canvas is the 2x image, the
filesystem holds the two rendered images at the two output paths (and is
unchanged elsewhere), and exactly the two confirmation lines were printed. -/
theorem scriptRun_eq (env : Env) (renv : RasterEnv) (fs0 : String → Option Image) :
    scriptRun env renv fs0 =
      ⟨some (twoxImage env renv),
       fun p =>
         if p = output_path_2x then some (twoxImage env renv)
         else if p = output_path then some (baseImage env renv)
         else fs0 p,
       [baseMessage, twoxMessage]⟩ :=
  rfl

/-! ### Helper predicates and helper lemmas -/

def Event.isLine : Event → Bool
  | .line .. => true
  | _ => false

def Event.isPolygon : Event → Bool
  | .polygon .. => true
  | _ => false

def Event.isText : Event → Bool
  | .text .. => true
  | _ => false

/-- Save and print events: the externally visible outputs. -/
def Event.isOutput : Event → Bool
  | .save _ => true
  | .print _ => true
  | _ => false

/-- The path an event writes to, if it is a save. -/
def Event.savesTo : Event → Option String
  | .save q => some q
  | _ => none

/-- Doubling a point, for comparing the two arrowheads. -/
def scalePoint (p : Point) : Point :=
  ⟨2 * p.x, 2 * p.y⟩

lemma runEvents_append (renv : RasterEnv) (s : RState) (a b : List Event) :
    runEvents renv s (a ++ b) = runEvents renv (runEvents renv s a) b := by
  simp [runEvents, List.foldl_append]

/-- Running events none of which saves to `p` leaves the filesystem at `p`
unchanged. -/
lemma runEvents_fs_preserved (renv : RasterEnv) (p : String) :
    ∀ (l : List Event) (s : RState), (∀ e ∈ l, e.savesTo ≠ some p) →
      (runEvents renv s l).fs p = s.fs p := by
  intro l
  induction l with
  | nil => intro s _; rfl
  | cons e t ih =>
    intro s h
    have ht : ∀ e' ∈ t, e'.savesTo ≠ some p :=
      fun e' he' => h e' (List.mem_cons_of_mem _ he')
    have he : e.savesTo ≠ some p := h e (List.mem_cons_self _ _)
    show (runEvents renv (step renv s e) t).fs p = s.fs p
    rw [ih (step renv s e) ht]
    cases e with
    | save q =>
      have hq : q ≠ p := by
        intro hqp
        exact he (by simp [Event.savesTo, hqp])
      simp [step]
      intro hpq
      exact absurd hpq.symm hq
    | newImage w hgt c => rfl
    | line p1 p2 c w => rfl
    | polygon pts c => rfl
    | text pos str c f => rfl
    | print str => rfl

/-! ### Concrete inputs for witnesses -/

/-- A concrete environment in which both font loads raise. -/
def envRaised : Env :=
  ⟨.raised, .raised, fun _ _ _ => ⟨0, 0, 80, 11⟩⟩

/-- A concrete rasteriser with empty footprints. -/
def renvNone : RasterEnv :=
  ⟨fun _ _ _ _ _ => false, fun _ _ _ => false, fun _ _ _ _ _ => false,
   fun _ _ _ c _ _ _ => c⟩

/-- An initially empty filesystem. -/
def fsEmpty : String → Option Image := fun _ => none

/-! ### Spec-side parametric render, for the refinement claim (C6)

`Layout` collects the layout constants of one render; `specRenderTrace`
performs the spec's drawing steps 1-7 from a `Layout`, and `specScaleLayout`
is the spec's "all layout constants multiplied by 2". -/

structure Layout where
  canvasW : Nat
  canvasH : Nat
  arrowY : Int
  startX : Int
  endX : Int
  lineWidth : Nat
  tipOffset : Int
  headSize : Int
  headHalf : Int
  textOffset : Int
  fontSize : Nat
deriving DecidableEq, Repr

/-- Every layout constant multiplied by 2 (font size included). -/
def specScaleLayout (l : Layout) : Layout :=
  ⟨l.canvasW * 2, l.canvasH * 2, l.arrowY * 2, l.startX * 2, l.endX * 2,
   l.lineWidth * 2, l.tipOffset * 2, l.headSize * 2, l.headHalf * 2,
   l.textOffset * 2, l.fontSize * 2⟩

/-- The base render's layout constants, read off the source. -/
def baseLayout : Layout :=
  ⟨WIDTH, HEIGHT, arrow_y, arrow_start_x, arrow_end_x, arrow_width,
   2, arrow_head_size, arrow_head_size / 2, 12, 14⟩

/-- The 2x render's layout constants, read off the source. -/
def twoxLayout : Layout :=
  ⟨WIDTH * 2, HEIGHT * 2, arrow_y_2x, arrow_start_x_2x, arrow_end_x_2x,
   arrow_width_2x, 4, arrow_head_size * 2, arrow_head_size, 24, 28⟩

/-- The spec's render steps 1-7 as a function of the layout constants: blank
canvas, arrow line, arrowhead triangle, font selection at `l.fontSize` with
silent fallback, measured-width centering of the caption, save, confirmation
print. -/
def specRenderTrace (l : Layout) (outcome : FontLoad)
    (measure : Point → String → Font → BBox) (path msg : String) : List Event :=
  let f : Font :=
    match outcome with
    | .loaded => .truetype helveticaPath l.fontSize
    | .raised => .builtinDefault
  let b := measure ⟨0, 0⟩ text f
  let tw := b.x1 - b.x0
  [ .newImage l.canvasW l.canvasH backgroundColor,
    .line ⟨l.startX, l.arrowY⟩ ⟨l.endX, l.arrowY⟩ strokeColor l.lineWidth,
    .polygon [ ⟨l.endX + l.tipOffset, l.arrowY⟩,
               ⟨l.endX - l.headSize, l.arrowY - l.headHalf⟩,
               ⟨l.endX - l.headSize, l.arrowY + l.headHalf⟩ ] strokeColor,
    .text ⟨(l.startX + l.endX) / 2 - tw / 2, l.arrowY + l.textOffset⟩ text captionColor f,
    .save path,
    .print msg ]

/-! ### The claims -/

/-- C1: the run leaves exactly an image of dimensions 660x400 at the base
output path and one of dimensions 1320x800 at the 2x output path. -/
theorem output_dimensions (env : Env) (renv : RasterEnv) (fs0 : String → Option Image) :
    (((scriptRun env renv fs0).fs output_path).map fun i => (i.width, i.height))
        = some (660, 400) ∧
    (((scriptRun env renv fs0).fs output_path_2x).map fun i => (i.width, i.height))
        = some (1320, 800) :=
  ⟨rfl, rfl⟩

/-- C2: the script makes exactly two line-drawing calls: the base one from
(250,190) to (400,190) with fill (150,150,160) and width 2, and the 2x one
from (500,380) to (800,380) with the same fill and width 4. -/
theorem arrow_line_calls (env : Env) :
    (scriptTrace env).filter Event.isLine =
      [ .line ⟨250, 190⟩ ⟨400, 190⟩ ⟨150, 150, 160⟩ 2,
        .line ⟨500, 380⟩ ⟨800, 380⟩ ⟨150, 150, 160⟩ 4 ] :=
  rfl

/-- C3: the script makes exactly two filled-polygon calls in color
(150,150,160): the base arrowhead with apex (402,190) and base corners
(380,180) and (380,200), and the 2x arrowhead whose vertices are exactly the
doubled points (804,380), (760,360), (760,400). -/
theorem arrowhead_calls (env : Env) :
    (scriptTrace env).filter Event.isPolygon =
      [ .polygon [⟨402, 190⟩, ⟨380, 180⟩, ⟨380, 200⟩] ⟨150, 150, 160⟩,
        .polygon (List.map scalePoint [⟨402, 190⟩, ⟨380, 180⟩, ⟨380, 200⟩])
          ⟨150, 150, 160⟩ ] :=
  rfl

/-- C4: the script makes exactly two text-drawing calls of the caption
"Drag to install" in color (100,100,110): the base one at x =
(250+400)//2 - text_width//2 and y = 202 with the chosen base font, and the
2x one at x = (500+800)//2 - text_width_2x//2 and y = 404 with the chosen 2x
font, where each width is the measured bounding-box width of the caption. -/
theorem caption_calls (env : Env) :
    (scriptTrace env).filter Event.isText =
      [ .text ⟨(250 + 400) / 2 - text_width env / 2, 202⟩
          "Drag to install" ⟨100, 100, 110⟩ (font env),
        .text ⟨(500 + 800) / 2 - text_width_2x env / 2, 404⟩
          "Drag to install" ⟨100, 100, 110⟩ (font_2x env) ] :=
  rfl

/-- C5: whatever the outcomes of the two font loads, a raised exception is
silently replaced by the built-in default font, the printed lines are
exactly the two confirmation messages (no error output), and both output
files are still written. -/
theorem font_fallback_total (env : Env) (renv : RasterEnv) (fs0 : String → Option Image) :
    (env.fontLoad14 = .raised → font env = .builtinDefault) ∧
    (env.fontLoad28 = .raised → font_2x env = .builtinDefault) ∧
    (scriptRun env renv fs0).printed = [baseMessage, twoxMessage] ∧
    (scriptRun env renv fs0).fs output_path = some (baseImage env renv) ∧
    (scriptRun env renv fs0).fs output_path_2x = some (twoxImage env renv) := by
  refine ⟨?_, ?_, rfl, rfl, rfl⟩
  · intro h
    simp [font, h]
  · intro h
    simp [font_2x, h]

/-- Witness for C5 at a concrete environment whose font loads raise. -/
theorem font_fallback_total_witness :
    (scriptRun envRaised renvNone fsEmpty).printed = [baseMessage, twoxMessage] ∧
    font envRaised = .builtinDefault ∧ font_2x envRaised = .builtinDefault :=
  ⟨(font_fallback_total envRaised renvNone fsEmpty).2.2.1,
   (font_fallback_total envRaised renvNone fsEmpty).1 rfl,
   (font_fallback_total envRaised renvNone fsEmpty).2.1 rfl⟩

/-- C6: both renders are instances of the same spec-side drawing procedure,
the base one at `baseLayout` and the 2x one at `baseLayout` with every layout
constant (font size included, 28 = 14 * 2) multiplied by exactly 2, writing
to the second output file. -/
theorem twox_doubles_base (env : Env) :
    baseTrace env =
      specRenderTrace baseLayout env.fontLoad14 env.textbbox output_path baseMessage ∧
    twoxTrace env =
      specRenderTrace (specScaleLayout baseLayout) env.fontLoad28 env.textbbox
        output_path_2x twoxMessage ∧
    twoxLayout = specScaleLayout baseLayout := by
  obtain ⟨f14, f28, mb⟩ := env
  cases f14 <;> cases f28 <;> exact ⟨rfl, rfl, rfl⟩

/-- C7: both files hold their render's final canvas, and on each canvas any
pixel outside the line footprint, the arrowhead footprint and the caption
footprint still has the background color (240,240,245). -/
theorem background_preserved (env : Env) (renv : RasterEnv)
    (fs0 : String → Option Image) (x y : Nat) :
    ((scriptRun env renv fs0).fs output_path = some (baseImage env renv) ∧
     (scriptRun env renv fs0).fs output_path_2x = some (twoxImage env renv)) ∧
    (renv.lineFoot ⟨arrow_start_x, arrow_y⟩ ⟨arrow_end_x, arrow_y⟩ arrow_width x y = false →
     renv.polyFoot arrow_head x y = false →
     renv.textFoot ⟨text_x env, text_y⟩ text (font env) x y = false →
     (baseImage env renv).pixel x y = backgroundColor) ∧
    (renv.lineFoot ⟨arrow_start_x_2x, arrow_y_2x⟩ ⟨arrow_end_x_2x, arrow_y_2x⟩ arrow_width_2x x y = false →
     renv.polyFoot arrow_head_2x x y = false →
     renv.textFoot ⟨text_x_2x env, text_y_2x⟩ text (font_2x env) x y = false →
     (twoxImage env renv).pixel x y = backgroundColor) := by
  refine ⟨⟨rfl, rfl⟩, ?_, ?_⟩
  · intro h1 h2 h3
    simp [baseImage, drawText, drawPolygon, drawLine, Image.new, h1, h2, h3]
  · intro h1 h2 h3
    simp [twoxImage, drawText, drawPolygon, drawLine, Image.new, h1, h2, h3]

/-- Witness for C7: with an empty-footprint rasteriser, pixel (0,0) of the
base image is the background color. -/
theorem background_preserved_witness :
    renvNone.lineFoot ⟨250, 190⟩ ⟨400, 190⟩ 2 0 0 = false ∧
    (baseImage envRaised renvNone).pixel 0 0 = backgroundColor :=
  ⟨rfl, (background_preserved envRaised renvNone fsEmpty 0 0).2.1 rfl rfl rfl⟩

/-- C8: the run is deterministic: two runs under equal environments (same
font-load outcomes, same text metrics, same rasteriser, same starting
filesystem) produce identical final states, hence identical file contents. -/
theorem run_deterministic (e1 e2 : Env) (r1 r2 : RasterEnv)
    (f1 f2 : String → Option Image)
    (he : e1 = e2) (hr : r1 = r2) (hf : f1 = f2) :
    scriptRun e1 r1 f1 = scriptRun e2 r2 f2 := by
  subst he
  subst hr
  subst hf
  rfl

/-- Witness for C8 at concrete equal inputs. -/
theorem run_deterministic_witness :
    scriptRun envRaised renvNone fsEmpty = scriptRun envRaised renvNone fsEmpty :=
  run_deterministic envRaised envRaised renvNone renvNone fsEmpty fsEmpty rfl rfl rfl

/-- C9: the run writes exactly the two output files (overwriting whatever the
filesystem held there, leaving every other path untouched), prints exactly
the two confirmation lines, each containing its file's path, and each save is
immediately followed by its confirmation print. -/
theorem files_and_prints (env : Env) (renv : RasterEnv) (fs0 : String → Option Image) :
    (scriptRun env renv fs0).fs output_path = some (baseImage env renv) ∧
    (scriptRun env renv fs0).fs output_path_2x = some (twoxImage env renv) ∧
    (∀ p, p ≠ output_path → p ≠ output_path_2x → (scriptRun env renv fs0).fs p = fs0 p) ∧
    (scriptRun env renv fs0).printed =
      [ "DMG background created: " ++ output_path,
        "DMG background @2x created: " ++ output_path_2x ] ∧
    (scriptTrace env).filter Event.isOutput =
      [ .save output_path, .print baseMessage,
        .save output_path_2x, .print twoxMessage ] := by
  refine ⟨rfl, rfl, ?_, rfl, rfl⟩
  intro p h1 h2
  rw [scriptRun_eq]
  simp only []
  rw [if_neg h2, if_neg h1]

/-- Witness for C9: a third path is left untouched by the run. -/
theorem files_and_prints_witness :
    ("other.png" : String) ≠ output_path ∧
    ("other.png" : String) ≠ output_path_2x ∧
    (scriptRun envRaised renvNone fsEmpty).fs "other.png" = fsEmpty "other.png" :=
  ⟨by decide, by decide,
   (files_and_prints envRaised renvNone fsEmpty).2.2.1 "other.png"
     (by decide) (by decide)⟩

/-- C10: the trace is the base render followed by the 2x render, with the
base save and its confirmation print as the base render's last two events;
and after the base render plus any number of further events, the base output
file is already on the filesystem with its final contents. -/
theorem base_saved_before_twox (env : Env) (renv : RasterEnv)
    (fs0 : String → Option Image) :
    (scriptTrace env).take 6 = baseTrace env ∧
    (scriptTrace env).drop 6 = twoxTrace env ∧
    (baseTrace env).drop 4 = [.save output_path, .print baseMessage] ∧
    ∀ k, (runEvents renv (startState fs0) ((scriptTrace env).take (6 + k))).fs
      output_path = some (baseImage env renv) := by
  refine ⟨rfl, rfl, rfl, ?_⟩
  intro k
  have hsplit : (scriptTrace env).take (6 + k) =
      baseTrace env ++ (twoxTrace env).take k := by
    have h6 : (6 : Nat) + k = (baseTrace env).length + k := rfl
    rw [scriptTrace, h6, List.take_append]
  have hmem : ∀ e ∈ (twoxTrace env).take k, e.savesTo ≠ some output_path := by
    intro e he
    have h2 : e ∈ twoxTrace env := List.take_subset _ _ he
    simp only [twoxTrace, List.mem_cons, List.not_mem_nil, or_false] at h2
    rcases h2 with h | h | h | h | h | h <;> subst h <;>
      simp [Event.savesTo, output_path, output_path_2x]
  rw [hsplit, runEvents_append, runEvents_fs_preserved renv output_path _ _ hmem]
  rfl

end DmgBackground
